import Mathlib

/-!
Verification development for the commodity-tracker ingestion pipeline.

Shallow embedding of the data model and the services in
`apps/market` and `apps/core`:

* `PriceData` rows for one commodity are a `List PriceRow` (the store for
  that instrument); the `(commodity, timestamp)` natural key is the
  `timestamp` field of a row.
* Prices use `ℚ` (the code uses arbitrary-precision `Decimal`).
* Timestamps are `Nat` (a parsed `%Y-%m-%d` date is encoded as
  `y*10000 + m*100 + d`, which is injective and order-preserving on the
  date format the code parses).
* Fallible Python code is embedded with `Except Exc`, where `Exc` mirrors
  the exception classes of `apps/core/exceptions.py` plus `AttributeError`.
-/

set_option autoImplicit false

namespace CommodityTracker

/-- Exception taxonomy from `apps/core/exceptions.py`, plus Python's
built-in `AttributeError`.  `cause` models `raise ... from e`. -/
inductive Exc where
  | configurationError (msg : String)
  | dataFetchError (msg : String) (cause : Option Exc)
  | dataProcessingError (msg : String) (cause : Option Exc)
  | rateLimitExceededError (msg : String)
  | apiKeyMissingError (msg : String)
  | attributeError (msg : String)
  deriving Repr

/-- `str(e)`: the message carried by an exception. -/
def Exc.message : Exc → String
  | .configurationError m => m
  | .dataFetchError m _ => m
  | .dataProcessingError m _ => m
  | .rateLimitExceededError m => m
  | .apiKeyMissingError m => m
  | .attributeError m => m

/-- A parsed item handed to `PriceDataProcessor._prepare_price_data_entries`:
a dict with a `timestamp` key (possibly absent/None) and optional price
fields.  `close_price` is optional here; the processor drops items without
it. -/
structure ParsedItem where
  timestamp : Option Nat
  open_price : Option ℚ := none
  high_price : Option ℚ := none
  low_price : Option ℚ := none
  close_price : Option ℚ := none
  volume : Option Int := none
  deriving Repr, DecidableEq

/-- A stored `PriceData` row for one commodity (model `market_data.PriceData`
restricted to the fields the pipeline writes; `close_price` is mandatory,
per the model's non-null column). -/
structure PriceRow where
  timestamp : Nat
  open_price : Option ℚ := none
  high_price : Option ℚ := none
  low_price : Option ℚ := none
  close_price : ℚ
  volume : Option Int := none
  deriving Repr, DecidableEq

/-- All `PriceData` rows stored for one commodity. -/
abbrev Store := List PriceRow

/-- Timestamps present in the store (the `values_list('timestamp')` view). -/
def storeTimestamps (store : Store) : List Nat :=
  store.map (fun r => r.timestamp)

/-- Materialize one parsed item into a `PriceData` instance, as the loop body
of `_prepare_price_data_entries` does (`timestamp` popped, remaining fields
passed through). -/
def toPriceRow (ts : Nat) (c : ℚ) (item : ParsedItem) : PriceRow :=
  { timestamp := ts
    open_price := item.open_price
    high_price := item.high_price
    low_price := item.low_price
    close_price := c
    volume := item.volume }

/-- The `for item_data in parsed_items` loop of
`PriceDataProcessor._prepare_price_data_entries`: skip items with a missing
timestamp, skip timestamps already in `existing`, skip items with no
`close_price`, materialize the rest. -/
def prepareLoop (existing : List Nat) : List ParsedItem → List PriceRow
  | [] => []
  | item :: rest =>
    match item.timestamp with
    | none => prepareLoop existing rest
    | some ts =>
      if ts ∈ existing then
        prepareLoop existing rest
      else
        match item.close_price with
        | none => prepareLoop existing rest
        | some c => toPriceRow ts c item :: prepareLoop existing rest

/-- `PriceDataProcessor._prepare_price_data_entries`: collect the timestamps
to check, return `[]` when there are none, query the existing timestamps
for this commodity among them, and run the materialization loop. -/
def prepare_price_data_entries (store : Store) (parsed_items : List ParsedItem) :
    List PriceRow :=
  let timestamps_to_check := parsed_items.filterMap (fun i => i.timestamp)
  if timestamps_to_check.isEmpty then []
  else
    let existing_timestamps :=
      (storeTimestamps store).filter (fun t => t ∈ timestamps_to_check)
    prepareLoop existing_timestamps parsed_items

/-- The storage collaborator's bulk insert with `ignore_conflicts=True`:
insert rows in order, silently skipping any row whose timestamp already
exists for the commodity (including rows inserted earlier in the same
batch); return the new store and the number of rows actually inserted. -/
def insertIgnoreConflicts : Store → List PriceRow → Store × Nat
  | store, [] => (store, 0)
  | store, r :: rs =>
    if r.timestamp ∈ storeTimestamps store then
      insertIgnoreConflicts store rs
    else
      let res := insertIgnoreConflicts (store ++ [r]) rs
      (res.1, res.2 + 1)

/-- Outcome of the database call inside
`PriceDataProcessor._bulk_create_price_data` (the database is an external
collaborator): the insert succeeds, raises `IntegrityError`, or raises some
other exception. -/
inductive DbOutcome where
  | ok
  | integrityError
  | otherError
  deriving Repr, DecidableEq

/-- `PriceDataProcessor._bulk_create_price_data`: empty input returns 0
without touching the database.  On success, `bulk_create(...,
ignore_conflicts=True)` inserts only the non-conflicting rows, but
returns the full submitted object list (with `ignore_conflicts` Django
does not report which rows were actually created, on any backend — the
source comment claiming PostgreSQL returns only the created objects is
wrong), so `num_created = len(created_objects)` is the number of
candidates submitted.  `except IntegrityError` logs and returns 0 for the
batch; any other exception is re-raised as `DataProcessingError` (with
the original as cause). -/
def bulk_create_price_data (outcome : DbOutcome) (store : Store)
    (price_data_list : List PriceRow) : Except Exc (Store × Nat) :=
  if price_data_list.isEmpty then .ok (store, 0)
  else
    match outcome with
    | .ok => .ok ((insertIgnoreConflicts store price_data_list).1,
        price_data_list.length)
    | .integrityError => .ok (store, 0)
    | .otherError =>
      .error (.dataProcessingError "Bulk creation of price data failed" none)

/-- `reconcile` as the claims name it: `_prepare_price_data_entries` followed
by `_bulk_create_price_data` on the success path of the database. -/
def reconcile (store : Store) (parsed_items : List ParsedItem) : Store × Nat :=
  insertIgnoreConflicts store (prepare_price_data_entries store parsed_items)

/-- `str.lower()` on the ASCII identifiers this code matches against
(executable character-by-character, unlike `String.toLower`). -/
def pyLower (s : String) : String :=
  String.mk (s.data.map Char.toLower)

/-- Strip leading and trailing whitespace from a character list. -/
def trimChars (cs : List Char) : List Char :=
  ((cs.dropWhile Char.isWhitespace).reverse.dropWhile Char.isWhitespace).reverse

/-- `str.strip()`. -/
def pyStrip (s : String) : String :=
  String.mk (trimChars s.data)

/-- `pat` is an initial segment of `s` (on character lists). -/
def startsWithChars : List Char → List Char → Bool
  | [], _ => true
  | _ :: _, [] => false
  | p :: ps, c :: cs => p = c && startsWithChars ps cs

/-- `pat` occurs as a contiguous segment of `s` (on character lists). -/
def occursIn (pat : List Char) : List Char → Bool
  | [] => pat.isEmpty
  | c :: rest => startsWithChars pat (c :: rest) || occursIn pat rest

/-- Split a character list on a separator character (`str.split(sep)`). -/
def splitOnChar (sep : Char) : List Char → List (List Char)
  | [] => [[]]
  | c :: cs =>
    let rest := splitOnChar sep cs
    if c = sep then [] :: rest
    else
      match rest with
      | [] => [[c]]
      | g :: gs => (c :: g) :: gs

/-- Substring test: `pat in s` in Python. -/
def strContains (s pat : String) : Bool :=
  occursIn pat.data s.data

/-- Numeric value of a digit list (most significant first). -/
def digitsVal (cs : List Char) : Nat :=
  cs.foldl (fun n c => n * 10 + (c.toNat - '0'.toNat)) 0

/-- `cs` is nonempty and consists of decimal digits. -/
def isDigitRun (cs : List Char) : Bool :=
  !cs.isEmpty && cs.all Char.isDigit

/-- The decimal-literal parsing done by Python's `Decimal(str)` on the plain
sign/digits/point literals this pipeline feeds it (exponents and special
values such as `NaN` are never produced by the providers modelled here and
are omitted): optional sign, integer digits, optional fractional digits,
at least one digit in total. -/
def parseDecimalString (s : String) : Option ℚ :=
  let (sign, body) :=
    match s.data with
    | '-' :: rest => ((-1 : ℚ), rest)
    | '+' :: rest => ((1 : ℚ), rest)
    | _ => ((1 : ℚ), s.data)
  match splitOnChar '.' body with
  | [ip] =>
    if isDigitRun ip then some (sign * (digitsVal ip : ℚ)) else none
  | [ip, fp] =>
    if (ip.all Char.isDigit && fp.all Char.isDigit)
        && !(ip.isEmpty && fp.isEmpty) then
      some (sign * ((digitsVal ip : ℚ)
        + (digitsVal fp : ℚ) / ((10 : ℚ) ^ fp.length)))
    else none
  | _ => none

/-- `PriceConverter.to_decimal` (`apps/core/utils.py`): `None` and
whitespace/empty strings yield the default (`None`); otherwise the value is
converted with `Decimal(str(value))`, and a conversion failure yields the
default as well. -/
def to_decimal (value : Option String) : Option ℚ :=
  match value with
  | none => none
  | some v =>
    if pyStrip v = "" then none
    else parseDecimalString (pyStrip v)

/-- `DateTimeHelper.parse_date_string` with the default `%Y-%m-%d` format:
falsy (`None`/empty) input yields `None`; otherwise `strptime` requires
year-month-day digit groups with a valid month and day, else `None`.
A parsed date is encoded as `y*10000 + m*100 + d`. -/
def parse_date_string (date_str : Option String) : Option Nat :=
  match date_str with
  | none => none
  | some s =>
    if s = "" then none
    else
      match splitOnChar '-' s.data with
      | [ys, ms, ds] =>
        if isDigitRun ys && isDigitRun ms && isDigitRun ds then
          let y := digitsVal ys
          let m := digitsVal ms
          let d := digitsVal ds
          if 1 ≤ m && m ≤ 12 && 1 ≤ d && d ≤ 31 then
            some (y * 10000 + m * 100 + d)
          else none
        else none
      | _ => none

/-! ### Normalizers (`PriceDataProcessor.process_alpha_vantage_data` /
`process_fred_data`) -/

/-- One date-keyed entry of an Alpha Vantage time series: a dict from field
names (`"1. open"`, `"4. close"`, …) to string values. -/
abbrev PricePoint := List (String × String)

/-- An Alpha-Vantage-shaped raw payload: a JSON object whose values are
either a date-keyed dict of price points (`some`) or some non-dict value
(`none`, e.g. the `"Meta Data"` entry). -/
structure AVPayload where
  entries : List (String × Option (List (String × PricePoint)))
  deriving Repr

/-- The time-series key search of `process_alpha_vantage_data`:
`"Time Series" in k or "Monthly" in k or "Weekly" in k or "Daily" in k`. -/
def avTimeSeriesKeyMatch (k : String) : Bool :=
  strContains k "Time Series" || strContains k "Monthly"
    || strContains k "Weekly" || strContains k "Daily"

/-- `next((k for k in price_point_data if field in k.lower()), None)` followed
by `price_point_data.get(...)`: the value under the first key whose
lowercase form contains `field`. -/
def fuzzyLookup (price_point_data : PricePoint) (field : String) : Option String :=
  match price_point_data.find? (fun kv => strContains (pyLower kv.1) field) with
  | some kv => some kv.2
  | none => none

/-- The volume post-processing of `process_alpha_vantage_data`: a `Decimal`
volume becomes an `int` when it is a whole number and `None` otherwise. -/
def avVolume (v : Option ℚ) : Option Int :=
  match v with
  | some q => if q.den = 1 then some q.num else none
  | none => none

/-- The per-date loop of `process_alpha_vantage_data`: skip unparseable
dates, extract the price fields by case-insensitive substring key match,
keep the item only when `close_price` is present. -/
def av_parse_items (time_series : List (String × PricePoint)) : List ParsedItem :=
  time_series.filterMap (fun e =>
    match parse_date_string (some e.1) with
    | none => none
    | some ts =>
      let item : ParsedItem :=
        { timestamp := some ts
          open_price := to_decimal (fuzzyLookup e.2 "open")
          high_price := to_decimal (fuzzyLookup e.2 "high")
          low_price := to_decimal (fuzzyLookup e.2 "low")
          close_price := to_decimal (fuzzyLookup e.2 "close")
          volume := avVolume (to_decimal (fuzzyLookup e.2 "volume")) }
      if item.close_price.isSome then some item else none)

/-- `PriceDataProcessor.process_alpha_vantage_data` (database success path):
locate the time-series sub-dict, parse its entries, and hand them to
`_prepare_price_data_entries` / `_bulk_create_price_data`; zero candidates
short-circuit to 0 created. -/
def process_alpha_vantage_data (store : Store) (raw_data : AVPayload) :
    Store × Nat :=
  match raw_data.entries.find? (fun e => avTimeSeriesKeyMatch e.1) with
  | none => (store, 0)
  | some e =>
    match e.2 with
    | none => (store, 0)
    | some time_series =>
      let parsed_items_for_db := av_parse_items time_series
      if parsed_items_for_db.isEmpty then (store, 0)
      else reconcile store parsed_items_for_db

/-- One element of a FRED `observations` array: a `{date, value}` pair,
either field possibly absent. -/
structure FredObs where
  date : Option String
  value : Option String
  deriving Repr, DecidableEq

/-- A FRED-shaped raw payload; `observations = none` models a payload whose
`observations` key is missing or not a list. -/
structure FredPayload where
  observations : Option (List FredObs)
  deriving Repr

/-- The per-observation loop of `process_fred_data`: skip a missing value or
the `"."` sentinel, skip unparseable dates, skip values that fail decimal
conversion; the surviving value becomes `close_price`. -/
def fred_candidates (observations : List FredObs) : List ParsedItem :=
  observations.filterMap (fun obs =>
    match obs.value with
    | none => none
    | some value_str =>
      if pyStrip value_str = "." then none
      else
        match parse_date_string obs.date with
        | none => none
        | some ts =>
          match to_decimal (some value_str) with
          | none => none
          | some close_price =>
            some { timestamp := some ts, close_price := some close_price })

/-- A FRED observation that survives every skip rule of the loop: value
present, not the `"."` sentinel, parseable date, convertible value. -/
def fredObsValid (o : FredObs) : Bool :=
  match o.value with
  | none => false
  | some w =>
    decide (pyStrip w ≠ ".") && (parse_date_string o.date).isSome
      && (to_decimal (some w)).isSome

/-- `PriceDataProcessor.process_fred_data` (database success path). -/
def process_fred_data (store : Store) (raw_data : FredPayload) : Store × Nat :=
  match raw_data.observations with
  | none => (store, 0)
  | some observations =>
    let parsed_items_for_db := fred_candidates observations
    if parsed_items_for_db.isEmpty then (store, 0)
    else reconcile store parsed_items_for_db

/-! ### Derived price fields (`market_data.PriceData` properties) -/

/-- `PriceData.price_change`: `close - open` when both are present, else
`None`. -/
def price_change (open_price close_price : Option ℚ) : Option ℚ :=
  match open_price, close_price with
  | some o, some c => some (c - o)
  | _, _ => none

/-- `PriceData.price_change_percentage`: `(change / open) * 100` when the
change is present and `open` is present and nonzero, else `None`. -/
def price_change_percentage (open_price close_price : Option ℚ) : Option ℚ :=
  match price_change open_price close_price with
  | none => none
  | some change =>
    match open_price with
    | none => none
    | some o => if o ≠ 0 then some (change / o * 100) else none

/-! ### `Commodity.last_updated` and the `PriceData` post-save signal -/

/-- `signals.price_data_post_save`: when a `PriceData` row was created, the
commodity's `last_updated` is set to that row's timestamp (no comparison
with the previous value). -/
def price_data_post_save (last_updated : Option Nat) (created : Bool)
    (instance_timestamp : Nat) : Option Nat :=
  if created then some instance_timestamp else last_updated

/-- The signal applied in sequence to every created row (the rows of one or
several ingestion runs, in creation order). -/
def apply_created_signals (last_updated : Option Nat) (created_rows : List Nat) :
    Option Nat :=
  created_rows.foldl (fun lu ts => price_data_post_save lu true ts) last_updated

/-- `Commodity.update_last_updated`: sets `last_updated` to the wall-clock
`timezone.now()`. -/
def update_last_updated (now : Nat) (_last_updated : Option Nat) : Option Nat :=
  some now

/-! ### `MarketUpdate` ledger (`market_data.MarketUpdate`) -/

/-- The mutable fields of a `MarketUpdate` row that the transition methods
touch.  Times are abstract `Nat` instants supplied for `timezone.now()`. -/
structure MarketUpdateRec where
  status : String := "PENDING"
  task_id : Option String := none
  records_fetched : Nat := 0
  records_created : Nat := 0
  records_updated : Nat := 0
  error_message : Option String := none
  started_at : Option Nat := none
  completed_at : Option Nat := none
  deriving Repr, DecidableEq

/-- `MarketUpdate.mark_as_running`: unconditionally sets `RUNNING` and the
start time, recording the task id when given. -/
def mark_as_running (now : Nat) (task_id : Option String)
    (rec : MarketUpdateRec) : MarketUpdateRec :=
  { rec with
      status := "RUNNING"
      started_at := some now
      task_id := match task_id with | some t => some t | none => rec.task_id }

/-- `MarketUpdate.mark_completed`: unconditionally sets `SUCCESS`, the
completion time and the three counters in one write. -/
def mark_completed (now records_fetched records_created records_updated : Nat)
    (rec : MarketUpdateRec) : MarketUpdateRec :=
  { rec with
      status := "SUCCESS"
      completed_at := some now
      records_fetched := records_fetched
      records_created := records_created
      records_updated := records_updated }

/-- `MarketUpdate.mark_failed`: unconditionally sets `FAILED`, the completion
time and the error message. -/
def mark_failed (now : Nat) (error_message : String)
    (rec : MarketUpdateRec) : MarketUpdateRec :=
  { rec with
      status := "FAILED"
      completed_at := some now
      error_message := some error_message }

/-- The update-marking methods `market_data.MarketUpdate` defines (besides
fields, `__str__`, `id_short` and the `duration` property). -/
def marketUpdateMethods : List String :=
  ["mark_as_running", "mark_completed", "mark_failed"]

/-- Python attribute lookup on a `MarketUpdate` instance for a method name:
`AttributeError` when the class defines no such method. -/
def getattrMarketUpdate (name : String) : Except Exc Unit :=
  if name ∈ marketUpdateMethods then .ok ()
  else .error (.attributeError
    ("MarketUpdate object has no attribute " ++ name))

/-! ### Fetch orchestrator (`data_fetcher.CommodityDataFetcherOrchestrator`) -/

/-- The provider clients the registry can build. -/
inductive ApiClient where
  | alphaVantage
  | fred
  deriving Repr, DecidableEq

/-- `CommodityDataFetcherOrchestrator._get_client_for_source`:
case-insensitive match against the fixed registry; `ConfigurationError`
for any other source name. -/
def get_client_for_source (source_name : String) : Except Exc ApiClient :=
  let source_name_lower := pyLower source_name
  if source_name_lower = "alpha vantage" then .ok .alphaVantage
  else if source_name_lower = "fred" then .ok .fred
  else .error (.configurationError
    ("No API client configured for source: " ++ source_name))

/-- A raw payload returned by a provider client. -/
inductive RawPayload where
  | av (p : AVPayload)
  | fred (p : FredPayload)
  deriving Repr

/-- Python truthiness of the raw payload dict (`if raw_data:`): an empty
dict is falsy. -/
def RawPayload.isTruthy : RawPayload → Bool
  | .av p => !p.entries.isEmpty
  | .fred p => p.observations.isSome

/-- `CommodityDataFetcherOrchestrator.fetch_data_for_commodity`: resolve the
client inside the `try` block, delegate to it (`clientFetch` models the
matched client's network call, which may itself raise), and wrap any
exception `e` escaping the block — including the `ConfigurationError` of
the resolution step — as `DataFetchError` carrying the commodity symbol
and `e` as cause. -/
def fetch_data_for_commodity (source_name symbol : String)
    (clientFetch : ApiClient → Except Exc RawPayload) :
    Except Exc RawPayload :=
  let body : Except Exc RawPayload := do
    let client ← get_client_for_source source_name
    clientFetch client
  match body with
  | .ok d => .ok d
  | .error e =>
    .error (.dataFetchError
      ("Failed to fetch data for " ++ symbol ++ ": " ++ e.message) (some e))

/-! ### Correction path (`data_processor.DataProcessor._create_or_update_price_data`) -/

/-- The well-formed field set of one data dict handed to
`_create_or_update_price_data` (timestamp already parsed; `close` present
so that the row satisfies the non-null column). -/
structure CorrectionData where
  timestamp : Nat
  open_price : Option ℚ := none
  high_price : Option ℚ := none
  low_price : Option ℚ := none
  close_price : ℚ
  volume : Option Int := none
  deriving Repr, DecidableEq

/-- The row written by the correction path: all price fields taken from the
incoming data. -/
def correctionRow (d : CorrectionData) : PriceRow :=
  { timestamp := d.timestamp
    open_price := d.open_price
    high_price := d.high_price
    low_price := d.low_price
    close_price := d.close_price
    volume := d.volume }

/-- Overwrite the first row with the given timestamp (the `.first()` row),
as the update branch does field by field. -/
def updateFirstRow (d : CorrectionData) : Store → Store
  | [] => []
  | row :: rest =>
    if row.timestamp = d.timestamp then correctionRow d :: rest
    else row :: updateFirstRow d rest

/-- `DataProcessor._create_or_update_price_data`: look up the row with this
commodity and timestamp; update its fields in place when it exists,
otherwise create a new row. -/
def create_or_update_price_data (store : Store) (d : CorrectionData) : Store :=
  match store.find? (fun row => row.timestamp = d.timestamp) with
  | some _ => updateFirstRow d store
  | none => store ++ [correctionRow d]

/-! ### Update orchestration (`MarketUpdateOrchestrationService`) -/

/-- `_get_processor_method_for_source`: a processing method exists only for
the sources `alpha vantage` and `fred` (case-insensitive). -/
def get_processor_method_available (source_name : String) : Bool :=
  pyLower source_name = "alpha vantage" || pyLower source_name = "fred"

/-- Dispatch to the processor picked by `_get_processor_method_for_source`
and run it on the raw payload.  A payload of the other family contains no
matching time-series key resp. no `observations` list, so the mismatched
processor returns 0, as it does in the source. -/
def run_processor (store : Store) (source_name : String) (raw : RawPayload) :
    Store × Nat :=
  if pyLower source_name = "alpha vantage" then
    match raw with
    | .av p => process_alpha_vantage_data store p
    | .fred _ => (store, 0)
  else if pyLower source_name = "fred" then
    match raw with
    | .fred p => process_fred_data store p
    | .av _ => (store, 0)
  else (store, 0)

/-- `MarketUpdateOrchestrationService._estimate_records_in_raw_data`. -/
def estimate_records_in_raw_data (source_name : String) (raw : RawPayload) :
    Nat :=
  if pyLower source_name = "alpha vantage" then
    match raw with
    | .av p =>
      match p.entries.find? (fun e => avTimeSeriesKeyMatch e.1) with
      | some e => match e.2 with | some ts => ts.length | none => 0
      | none => 0
    | .fred _ => 0
  else if pyLower source_name = "fred" then
    match raw with
    | .fred p => match p.observations with | some l => l.length | none => 0
    | .av _ => 0
  else 0

/-- The terminal ledger write of `update_single_commodity`: every branch
calls `update_log.mark_as_completed(status=..., ...)`.  `MarketUpdate`
defines no method of that name (its completion method is `mark_completed`,
which takes no status or error-message parameter and always writes
SUCCESS), so the attribute lookup raises `AttributeError`; the `.ok`
branch records the write the call requests and is unreachable. -/
def mark_as_completed_call (rec : MarketUpdateRec) (status : String)
    (records_fetched records_created : Nat) (error_message : Option String) :
    Except Exc MarketUpdateRec :=
  match getattrMarketUpdate "mark_as_completed" with
  | .error e => .error e
  | .ok _ =>
    .ok { rec with
            status := status
            records_fetched := records_fetched
            records_created := records_created
            error_message := error_message }

/-- `MarketUpdateOrchestrationService.update_single_commodity`: create the
ledger entry, mark it running, fetch (the fetch outcome is a parameter:
either a raw payload or the exception one of the handlers catches), and
classify: falsy payload → FAILED write; no processor for the source →
FAILED write; zero records created → PARTIAL write; created > 0 → SUCCESS
write; a caught exception → FAILED write with its message.  Every terminal
write goes through `mark_as_completed_call`; when it raises on the normal
path the generic handler attempts the same call once more, so the
resulting `AttributeError` (the same value) propagates out.  Returns the
store, the in-memory ledger object, and the outcome of the call. -/
def update_single_commodity (now : Nat) (source_name symbol : String)
    (task_id : Option String) (store : Store)
    (fetch_result : Except Exc RawPayload) :
    Store × MarketUpdateRec × Except Exc (Bool × String × Nat) :=
  let update_log : MarketUpdateRec := { status := "PENDING", task_id := task_id }
  let update_log := mark_as_running now task_id update_log
  match fetch_result with
  | .error err =>
    (match mark_as_completed_call update_log "FAILED" 0 0 (some err.message) with
     | .error e => (store, update_log, .error e)
     | .ok log2 => (store, log2, .ok (false, err.message, 0)))
  | .ok raw_data =>
    if raw_data.isTruthy then
      let num_fetched := estimate_records_in_raw_data source_name raw_data
      let update_log := { update_log with records_fetched := num_fetched }
      if get_processor_method_available source_name then
        let res := run_processor store source_name raw_data
        if res.2 > 0 then
          let msg := "Successfully created " ++ toString res.2
            ++ " new price records for " ++ symbol ++ "."
          (match mark_as_completed_call update_log "SUCCESS" num_fetched res.2
              none with
           | .error e => (res.1, update_log, .error e)
           | .ok log2 => (res.1, log2, .ok (true, msg, res.2)))
        else
          let msg := "Data fetched for " ++ symbol
            ++ ", but no new price records were created."
          (match mark_as_completed_call update_log "PARTIAL" num_fetched 0
              (some msg) with
           | .error e => (res.1, update_log, .error e)
           | .ok log2 => (res.1, log2, .ok (false, msg, 0)))
      else
        let msg := "No data processor available for source " ++ source_name
          ++ " for commodity " ++ symbol ++ "."
        (match mark_as_completed_call update_log "FAILED" num_fetched 0
            (some msg) with
         | .error e => (store, update_log, .error e)
         | .ok log2 => (store, log2, .ok (false, msg, 0)))
    else
      let msg := "No data received from " ++ source_name ++ " for " ++ symbol
        ++ "."
      (match mark_as_completed_call update_log "FAILED" 0 0 (some msg) with
       | .error e => (store, update_log, .error e)
       | .ok log2 => (store, log2, .ok (false, msg, 0)))

/-! ## Helper lemmas about the reconciliation engine -/

theorem storeTimestamps_append (a b : Store) :
    storeTimestamps (a ++ b) = storeTimestamps a ++ storeTimestamps b := by
  simp [storeTimestamps]

theorem prepareLoop_eq_nil_of_all_existing (existing : List Nat)
    (items : List ParsedItem)
    (h : ∀ i ∈ items, ∀ ts, i.timestamp = some ts → ts ∈ existing) :
    prepareLoop existing items = [] := by
  induction items with
  | nil => rfl
  | cons i rest ih =>
    have hrest : ∀ j ∈ rest, ∀ ts, j.timestamp = some ts → ts ∈ existing :=
      fun j hj => h j (List.mem_cons_of_mem _ hj)
    cases hts : i.timestamp with
    | none => simpa [prepareLoop, hts] using ih hrest
    | some ts =>
      have hmem : ts ∈ existing := h i (List.mem_cons_self _ _) ts hts
      simp [prepareLoop, hts, hmem, ih hrest]

theorem prepareLoop_of_valid_fresh (existing : List Nat)
    (items : List ParsedItem)
    (h : ∀ i ∈ items, ∃ ts c, i.timestamp = some ts ∧ i.close_price = some c ∧
      ts ∉ existing) :
    (prepareLoop existing items).length = items.length ∧
    (prepareLoop existing items).map (fun r => r.timestamp) =
      items.filterMap (fun i => i.timestamp) := by
  induction items with
  | nil => exact ⟨rfl, rfl⟩
  | cons i rest ih =>
    obtain ⟨ts, c, hts, hc, hfresh⟩ := h i (List.mem_cons_self _ _)
    have hrest := ih (fun j hj => h j (List.mem_cons_of_mem _ hj))
    refine ⟨?_, ?_⟩
    · simp [prepareLoop, hts, hc, hfresh, hrest.1]
    · simp [prepareLoop, hts, hc, hfresh, hrest.2, toPriceRow]

theorem insertIgnore_of_fresh_nodup (store : Store) (rows : List PriceRow)
    (h1 : ∀ r ∈ rows, r.timestamp ∉ storeTimestamps store)
    (h2 : (rows.map (fun r => r.timestamp)).Nodup) :
    insertIgnoreConflicts store rows = (store ++ rows, rows.length) := by
  induction rows generalizing store with
  | nil => simp [insertIgnoreConflicts]
  | cons r rs ih =>
    have hr : r.timestamp ∉ storeTimestamps store := h1 r (List.mem_cons_self _ _)
    have hnodup := List.nodup_cons.mp h2
    have h1' : ∀ r' ∈ rs, r'.timestamp ∉ storeTimestamps (store ++ [r]) := by
      intro r' hr'
      rw [storeTimestamps_append]
      simp only [List.mem_append]
      rintro (hin | hin)
      · exact h1 r' (List.mem_cons_of_mem _ hr') hin
      · have heq : r'.timestamp = r.timestamp := by
          simpa [storeTimestamps] using hin
        have : r.timestamp ∈ rs.map (fun x => x.timestamp) :=
          heq ▸ List.mem_map_of_mem (fun x => x.timestamp) hr'
        exact hnodup.1 this
    have hrec := ih (store ++ [r]) h1' hnodup.2
    simp [insertIgnoreConflicts, hr, hrec]

theorem insertIgnore_of_all_existing (store : Store) (rows : List PriceRow)
    (h : ∀ r ∈ rows, r.timestamp ∈ storeTimestamps store) :
    insertIgnoreConflicts store rows = (store, 0) := by
  induction rows with
  | nil => rfl
  | cons r rs ih =>
    have hr : r.timestamp ∈ storeTimestamps store := h r (List.mem_cons_self _ _)
    simp [insertIgnoreConflicts, hr,
      ih (fun r' hr' => h r' (List.mem_cons_of_mem _ hr'))]

/-- C1: Reconciliation is idempotent.  For a candidate set (each candidate
carrying a timestamp and a close price, timestamps pairwise distinct) and
an instrument with no stored rows, the first `reconcile` creates N = |set|
rows, running it again with the identical set creates 0 rows, and the
store holds exactly N rows for the instrument. -/
theorem reconcile_idempotent (items : List ParsedItem)
    (hvalid : ∀ i ∈ items, i.timestamp.isSome ∧ i.close_price.isSome)
    (hnodup : (items.filterMap (fun i => i.timestamp)).Nodup) :
    (reconcile [] items).2 = items.length ∧
    (reconcile (reconcile [] items).1 items).2 = 0 ∧
    (reconcile [] items).1.length = items.length := by
  classical
  by_cases hempty : items = []
  · subst hempty
    simp [reconcile, prepare_price_data_entries, insertIgnoreConflicts]
  · obtain ⟨i0, rest0, hcons⟩ := List.exists_cons_of_ne_nil hempty
    have hvalid' : ∀ i ∈ items, ∃ ts c, i.timestamp = some ts ∧
        i.close_price = some c ∧ True := by
      intro i hi
      obtain ⟨h1, h2⟩ := hvalid i hi
      obtain ⟨ts, hts⟩ := Option.isSome_iff_exists.mp h1
      obtain ⟨c, hc⟩ := Option.isSome_iff_exists.mp h2
      exact ⟨ts, c, hts, hc, trivial⟩
    -- the timestamps-to-check list is nonempty
    have htc : ¬ (items.filterMap (fun i => i.timestamp)).isEmpty := by
      obtain ⟨ts, c, hts, _, _⟩ := hvalid' i0 (hcons ▸ List.mem_cons_self _ _)
      have : ts ∈ items.filterMap (fun i => i.timestamp) :=
        List.mem_filterMap.mpr ⟨i0, hcons ▸ List.mem_cons_self _ _, hts⟩
      intro hcontra
      rw [List.isEmpty_iff] at hcontra
      simp [hcontra] at this
    -- the first call sees no existing timestamps
    have hprep1 : prepare_price_data_entries [] items = prepareLoop [] items := by
      simp [prepare_price_data_entries, htc, storeTimestamps]
    have hfresh : ∀ i ∈ items, ∃ ts c, i.timestamp = some ts ∧
        i.close_price = some c ∧ ts ∉ ([] : List Nat) := by
      intro i hi
      obtain ⟨ts, c, hts, hc, _⟩ := hvalid' i hi
      exact ⟨ts, c, hts, hc, by simp⟩
    have hloop := prepareLoop_of_valid_fresh [] items hfresh
    have hrows1 : insertIgnoreConflicts [] (prepareLoop [] items) =
        ([] ++ prepareLoop [] items, (prepareLoop [] items).length) := by
      refine insertIgnore_of_fresh_nodup [] _ ?_ ?_
      · intro r _
        simp [storeTimestamps]
      · rw [hloop.2]; exact hnodup
    have hfirst : reconcile [] items = (prepareLoop [] items, items.length) := by
      rw [reconcile, hprep1, hrows1]
      simp [hloop.1]
    refine ⟨by rw [hfirst], ?_, by rw [hfirst]; exact hloop.1⟩
    -- the second call finds every candidate timestamp already stored
    rw [hfirst]
    have hsts : storeTimestamps (prepareLoop [] items) =
        items.filterMap (fun i => i.timestamp) := hloop.2
    have hprep2 : prepare_price_data_entries (prepareLoop [] items) items = [] := by
      rw [prepare_price_data_entries]
      simp only [htc, if_false]
      apply prepareLoop_eq_nil_of_all_existing
      intro i hi ts hts
      have htsin : ts ∈ items.filterMap (fun i => i.timestamp) :=
        List.mem_filterMap.mpr ⟨i, hi, hts⟩
      rw [List.mem_filter]
      refine ⟨by rw [hsts]; exact htsin, by simpa using htsin⟩
    rw [reconcile, hprep2]
    rfl

/-- Witness for C1 at a concrete two-candidate set. -/
theorem reconcile_idempotent_witness :
    (reconcile [] [{ timestamp := some 20240102, close_price := some 1 },
        { timestamp := some 20240103, close_price := some 2 }]).2 = 2 ∧
    (reconcile (reconcile [] [{ timestamp := some 20240102, close_price := some 1 },
        { timestamp := some 20240103, close_price := some 2 }]).1
        [{ timestamp := some 20240102, close_price := some 1 },
        { timestamp := some 20240103, close_price := some 2 }]).2 = 0 ∧
    (reconcile [] [{ timestamp := some 20240102, close_price := some 1 },
        { timestamp := some 20240103, close_price := some 2 }]).1.length = 2 :=
  reconcile_idempotent
    [{ timestamp := some 20240102, close_price := some 1 },
     { timestamp := some 20240103, close_price := some 2 }]
    (by decide) (by decide)

/-- C2 counterexample: creating a row at timestamp 5 and then a row at the
older timestamp 3 leaves `last_updated = 3` — the value is rolled back
from 5 and does not equal the maximum written timestamp `max 5 3 = 5`. -/
theorem last_updated_rollback_counterexample :
    apply_created_signals none [5] = some 5 ∧
    apply_created_signals none [5, 3] = some 3 ∧
    apply_created_signals none [5, 3] ≠ some (max 5 3) := by decide

/-- C2 (amended): the `price_data_post_save` handler assigns the created
row's own timestamp to `last_updated` with no monotonic-advance guard, so
after any creation sequence `last_updated` equals the timestamp of the
most recently created row (which may be older than a previously written
one), and `Commodity.update_last_updated` overwrites it with the
wall-clock `now`. -/
theorem last_updated_tracks_last_created (init : Option Nat) (rows : List Nat)
    (t now : Nat) :
    apply_created_signals init (rows ++ [t]) = some t ∧
    apply_created_signals init [] = init ∧
    update_last_updated now init = some now := by
  refine ⟨?_, rfl, rfl⟩
  simp [apply_created_signals, List.foldl_append, price_data_post_save]

/-- C4 counterexample: a run in the terminal SUCCESS state is moved back to
RUNNING by a later `mark_as_running` call — the model enforces no
terminal-state protection. -/
theorem terminal_state_reentry_counterexample :
    (mark_completed 5 3 2 0 {}).status = "SUCCESS" ∧
    (mark_as_running 6 none (mark_completed 5 3 2 0 {})).status = "RUNNING" :=
  ⟨rfl, rfl⟩

/-- C4 (amended): `mark_as_running`, `mark_completed` and `mark_failed`
overwrite the status unconditionally (to RUNNING, SUCCESS and FAILED
respectively) whatever the prior state, terminal or not; the one-terminal-
transition discipline is a caller convention, not a property of the
methods. -/
theorem mark_methods_set_status_unconditionally (rec : MarketUpdateRec)
    (now f c u : Nat) (task_id : Option String) (err : String) :
    (mark_as_running now task_id rec).status = "RUNNING" ∧
    (mark_completed now f c u rec).status = "SUCCESS" ∧
    (mark_failed now err rec).status = "FAILED" :=
  ⟨rfl, rfl, rfl⟩

/-- C10: `price_change` is `None` whenever `open` or `close` is absent;
`price_change_percentage` is `None` whenever `open` is absent or zero (so
it never divides by zero), and otherwise equals
`((close - open) / open) * 100` in exact arithmetic. -/
theorem price_change_percentage_safe (open_price close_price : Option ℚ) :
    ((open_price = none ∨ close_price = none) →
      price_change open_price close_price = none) ∧
    ((open_price = none ∨ open_price = some 0) →
      price_change_percentage open_price close_price = none) ∧
    (∀ o c, open_price = some o → close_price = some c → o ≠ 0 →
      price_change_percentage open_price close_price =
        some ((c - o) / o * 100)) := by
  refine ⟨?_, ?_, ?_⟩
  · rintro (h | h)
    · subst h; cases close_price <;> rfl
    · subst h; cases open_price <;> rfl
  · rintro (h | h) <;> subst h <;> cases close_price <;>
      simp [price_change_percentage, price_change]
  · intro o c ho hc hne
    subst ho; subst hc
    simp [price_change_percentage, price_change, hne]

/-- Witness for C10 at concrete prices. -/
theorem price_change_percentage_safe_witness :
    price_change none (some (5 : ℚ)) = none ∧
    price_change_percentage (some (0 : ℚ)) (some 5) = none ∧
    price_change_percentage (some (4 : ℚ)) (some 5) =
      some ((5 - 4) / 4 * 100) := by
  refine ⟨?_, ?_, ?_⟩
  · exact (price_change_percentage_safe none (some 5)).1 (Or.inl rfl)
  · exact (price_change_percentage_safe (some 0) (some 5)).2.1 (Or.inr rfl)
  · exact (price_change_percentage_safe (some 4) (some 5)).2.2 4 5 rfl rfl
      (by norm_num)

theorem insertIgnore_extends (store : Store) (rows : List PriceRow) :
    ∃ ext, (insertIgnoreConflicts store rows).1 = store ++ ext := by
  induction rows generalizing store with
  | nil => exact ⟨[], by simp [insertIgnoreConflicts]⟩
  | cons r rs ih =>
    by_cases hr : r.timestamp ∈ storeTimestamps store
    · simpa [insertIgnoreConflicts, hr] using ih store
    · obtain ⟨ext, hext⟩ := ih (store ++ [r])
      exact ⟨r :: ext, by simp [insertIgnoreConflicts, hr, hext]⟩

theorem insertIgnore_nodup (store : Store) (rows : List PriceRow)
    (h : (storeTimestamps store).Nodup) :
    (storeTimestamps (insertIgnoreConflicts store rows).1).Nodup := by
  induction rows generalizing store with
  | nil => simpa [insertIgnoreConflicts] using h
  | cons r rs ih =>
    by_cases hr : r.timestamp ∈ storeTimestamps store
    · simpa [insertIgnoreConflicts, hr] using ih store h
    · have h' : (storeTimestamps (store ++ [r])).Nodup := by
        rw [storeTimestamps_append]
        rw [List.nodup_append]
        refine ⟨h, by simp [storeTimestamps], ?_⟩
        intro a ha hb
        have : a = r.timestamp := by simpa [storeTimestamps] using hb
        exact hr (this ▸ ha)
      simpa [insertIgnoreConflicts, hr] using ih (store ++ [r]) h'

theorem updateFirstRow_find (d : CorrectionData) (store : Store)
    (h : ∃ r ∈ store, r.timestamp = d.timestamp) :
    (updateFirstRow d store).find? (fun row => row.timestamp = d.timestamp) =
      some (correctionRow d) := by
  induction store with
  | nil => simp at h
  | cons row rest ih =>
    by_cases hts : row.timestamp = d.timestamp
    · rw [updateFirstRow]
      simp only [hts, if_true]
      rw [List.find?_cons_of_pos _ (by simp [correctionRow])]
    · rw [updateFirstRow]
      simp only [hts, if_false]
      rw [List.find?_cons_of_neg _ (by simpa using hts)]
      apply ih
      obtain ⟨r, hr, hre⟩ := h
      rcases List.mem_cons.mp hr with hcase | hcase
      · exact absurd (hcase ▸ hre) hts
      · exact ⟨r, hcase, hre⟩

theorem create_or_update_overwrites (store : Store) (d : CorrectionData)
    (h : ∃ r ∈ store, r.timestamp = d.timestamp) :
    (create_or_update_price_data store d).find?
      (fun row => row.timestamp = d.timestamp) = some (correctionRow d) := by
  rw [create_or_update_price_data]
  cases hfind : store.find? (fun row => row.timestamp = d.timestamp) with
  | none =>
    obtain ⟨r, hr, hre⟩ := h
    have := List.find?_eq_none.mp hfind r hr
    simp [hre] at this
  | some r0 => exact updateFirstRow_find d store h

/-- C5: (instrument, timestamp) is a unique key on the store, and a second
write of an already-stored key through normal ingestion is a no-op: the
reconciliation result still holds the original row, and any row carrying
that timestamp is that original row (first write wins), while the explicit
correction path `_create_or_update_price_data` overwrites the stored
fields with the incoming ones. -/
theorem natural_key_unique_and_first_write_wins (store : Store)
    (items : List ParsedItem) (row : PriceRow) (d : CorrectionData)
    (hnodup : (storeTimestamps store).Nodup) (hmem : row ∈ store)
    (hts : d.timestamp = row.timestamp) :
    (storeTimestamps (reconcile store items).1).Nodup ∧
    row ∈ (reconcile store items).1 ∧
    (∀ row' ∈ (reconcile store items).1, row'.timestamp = row.timestamp →
      row' = row) ∧
    (create_or_update_price_data store d).find?
      (fun r => r.timestamp = d.timestamp) = some (correctionRow d) := by
  have hnd := insertIgnore_nodup store (prepare_price_data_entries store items)
    hnodup
  obtain ⟨ext, hext⟩ :=
    insertIgnore_extends store (prepare_price_data_entries store items)
  have hmem' : row ∈ (reconcile store items).1 := by
    rw [reconcile, hext]
    exact List.mem_append_left _ hmem
  refine ⟨hnd, hmem', ?_, ?_⟩
  · intro row' hrow' heq
    have hndmap : ((reconcile store items).1.map
        (fun r => r.timestamp)).Nodup := by
      simpa [storeTimestamps] using hnd
    exact List.inj_on_of_nodup_map hndmap hrow' hmem' heq
  · exact create_or_update_overwrites store d ⟨row, hmem, hts.symm⟩

/-- Witness for C5: a stored row at timestamp 20240102 with close 1, a new
candidate at the same timestamp with close 99, a correction at the same
timestamp with close 42. -/
theorem natural_key_unique_and_first_write_wins_witness :
    (storeTimestamps (reconcile [{ timestamp := 20240102, close_price := 1 }]
      [{ timestamp := some 20240102, close_price := some 99 }]).1).Nodup ∧
    ({ timestamp := 20240102, close_price := 1 } : PriceRow) ∈
      (reconcile [{ timestamp := 20240102, close_price := 1 }]
        [{ timestamp := some 20240102, close_price := some 99 }]).1 ∧
    (∀ row' ∈ (reconcile [{ timestamp := 20240102, close_price := 1 }]
        [{ timestamp := some 20240102, close_price := some 99 }]).1,
      row'.timestamp =
        ({ timestamp := 20240102, close_price := 1 } : PriceRow).timestamp →
      row' = { timestamp := 20240102, close_price := 1 }) ∧
    (create_or_update_price_data [{ timestamp := 20240102, close_price := 1 }]
      { timestamp := 20240102, open_price := some 7, close_price := 42 }).find?
      (fun r => r.timestamp =
        ({ timestamp := 20240102, open_price := some 7, close_price := 42 } :
          CorrectionData).timestamp) =
      some (correctionRow
        { timestamp := 20240102, open_price := some 7, close_price := 42 }) :=
  natural_key_unique_and_first_write_wins
    [{ timestamp := 20240102, close_price := 1 }]
    [{ timestamp := some 20240102, close_price := some 99 }]
    { timestamp := 20240102, close_price := 1 }
    { timestamp := 20240102, open_price := some 7, close_price := 42 }
    (by decide) (by decide) (by decide)

/-- C6 counterexample: for a commodity whose source name is not in the
registry, `fetch_data_for_commodity` does not fail with
`ConfigurationError` — the `ConfigurationError` raised by
`_get_client_for_source` is caught by the surrounding handler and
re-raised as `DataFetchError` (with the original as cause). -/
theorem fetch_unregistered_source_counterexample :
    fetch_data_for_commodity "Unknown" "GOLD" (fun _ => .ok (.fred ⟨none⟩)) =
      .error (.dataFetchError
        "Failed to fetch data for GOLD: No API client configured for source: Unknown"
        (some (.configurationError
          "No API client configured for source: Unknown"))) := rfl

/-- C6 (amended): `_get_client_for_source` raises `ConfigurationError` for an
unregistered provider name (case-insensitive), but
`fetch_data_for_commodity` wraps every exception of its body — that
`ConfigurationError` included — as `DataFetchError` with the commodity
context attached and the original exception preserved as cause; likewise
any exception raised by the matched client. -/
theorem fetch_data_error_wrapping (source_name symbol : String)
    (clientFetch : ApiClient → Except Exc RawPayload) :
    (pyLower source_name ≠ "alpha vantage" → pyLower source_name ≠ "fred" →
      fetch_data_for_commodity source_name symbol clientFetch =
        .error (.dataFetchError
          ("Failed to fetch data for " ++ symbol ++ ": "
            ++ ("No API client configured for source: " ++ source_name))
          (some (.configurationError
            ("No API client configured for source: " ++ source_name))))) ∧
    (∀ client e, get_client_for_source source_name = .ok client →
      clientFetch client = .error e →
      fetch_data_for_commodity source_name symbol clientFetch =
        .error (.dataFetchError
          ("Failed to fetch data for " ++ symbol ++ ": " ++ e.message)
          (some e))) := by
  constructor
  · intro h1 h2
    simp [fetch_data_for_commodity, get_client_for_source, h1, h2, Exc.message,
      bind, Except.bind]
  · intro client e hclient hcf
    simp [fetch_data_for_commodity, hclient, hcf, bind, Except.bind]

/-- Witness for C6: an unregistered source is wrapped, and a rate-limit
exception from the FRED client is wrapped with itself as cause. -/
theorem fetch_data_error_wrapping_witness :
    fetch_data_for_commodity "Bloomberg" "OIL" (fun _ => .ok (.fred ⟨none⟩)) =
      .error (.dataFetchError
        ("Failed to fetch data for " ++ "OIL" ++ ": "
          ++ ("No API client configured for source: " ++ "Bloomberg"))
        (some (.configurationError
          ("No API client configured for source: " ++ "Bloomberg")))) ∧
    fetch_data_for_commodity "FRED" "DCOILWTICO"
      (fun _ => .error (.rateLimitExceededError "rate limit")) =
      .error (.dataFetchError
        ("Failed to fetch data for " ++ "DCOILWTICO" ++ ": "
          ++ (Exc.rateLimitExceededError "rate limit").message)
        (some (.rateLimitExceededError "rate limit"))) :=
  ⟨(fetch_data_error_wrapping "Bloomberg" "OIL"
      (fun _ => .ok (.fred ⟨none⟩))).1 (by decide) (by decide),
   (fetch_data_error_wrapping "FRED" "DCOILWTICO"
      (fun _ => .error (.rateLimitExceededError "rate limit"))).2
      .fred (.rateLimitExceededError "rate limit") rfl rfl⟩

theorem insertIgnore_count_le (store : Store) (rows : List PriceRow) :
    (insertIgnoreConflicts store rows).2 ≤ rows.length := by
  induction rows generalizing store with
  | nil => simp [insertIgnoreConflicts]
  | cons r rs ih =>
    by_cases hr : r.timestamp ∈ storeTimestamps store
    · have := ih store
      simp [insertIgnoreConflicts, hr]
      omega
    · have := ih (store ++ [r])
      simp [insertIgnoreConflicts, hr]
      omega

theorem insertIgnore_store_length (store : Store) (rows : List PriceRow) :
    (insertIgnoreConflicts store rows).1.length =
      store.length + (insertIgnoreConflicts store rows).2 := by
  induction rows generalizing store with
  | nil => simp [insertIgnoreConflicts]
  | cons r rs ih =>
    by_cases hr : r.timestamp ∈ storeTimestamps store
    · simpa [insertIgnoreConflicts, hr] using ih store
    · have := ih (store ++ [r])
      simp [insertIgnoreConflicts, hr] at this ⊢
      omega

theorem insertIgnore_count_lt (store : Store) (rows : List PriceRow)
    (h : ∃ r ∈ rows, r.timestamp ∈ storeTimestamps store) :
    (insertIgnoreConflicts store rows).2 < rows.length := by
  induction rows generalizing store with
  | nil => simp at h
  | cons r rs ih =>
    by_cases hr : r.timestamp ∈ storeTimestamps store
    · have := insertIgnore_count_le store rs
      simp [insertIgnoreConflicts, hr]
      omega
    · obtain ⟨r', hr', hmem⟩ := h
      rcases List.mem_cons.mp hr' with hc | hc
      · exact absurd (hc ▸ hmem) hr
      · have hmem' : r'.timestamp ∈ storeTimestamps (store ++ [r]) := by
          rw [storeTimestamps_append]
          exact List.mem_append_left _ hmem
        have := ih (store ++ [r]) ⟨r', hc, hmem'⟩
        simp [insertIgnoreConflicts, hr]
        omega

/-- C9 (code bug): at a batch carrying a residual conflict, the return
value is not the number of rows actually inserted.  Django returns the
full submitted object list from an ignore-conflicts bulk insert, so
`num_created = len(created_objects)` here is 2 although only one row is
actually inserted (the store grows by one).  The other halves of the
claim hold at the same input: a residual `IntegrityError` is swallowed
(returning 0, not a failure) and any other database failure raises
`DataProcessingError`. -/
theorem bulk_create_count_overstates_on_conflict :
    bulk_create_price_data .ok [{ timestamp := 20240102, close_price := 1 }]
      [{ timestamp := 20240102, close_price := 5 },
       { timestamp := 20240103, close_price := 6 }] =
      .ok ([{ timestamp := 20240102, close_price := 1 },
            { timestamp := 20240103, close_price := 6 }], 2) ∧
    (insertIgnoreConflicts [{ timestamp := 20240102, close_price := 1 }]
      [{ timestamp := 20240102, close_price := 5 },
       { timestamp := 20240103, close_price := 6 }]).2 = 1 ∧
    bulk_create_price_data .integrityError
      [{ timestamp := 20240102, close_price := 1 }]
      [{ timestamp := 20240102, close_price := 5 },
       { timestamp := 20240103, close_price := 6 }] =
      .ok ([{ timestamp := 20240102, close_price := 1 }], 0) ∧
    bulk_create_price_data .otherError
      [{ timestamp := 20240102, close_price := 1 }]
      [{ timestamp := 20240102, close_price := 5 },
       { timestamp := 20240103, close_price := 6 }] =
      .error (.dataProcessingError "Bulk creation of price data failed" none) :=
  ⟨rfl, rfl, rfl, rfl⟩

theorem fred_candidates_of_valid (obs : List FredObs)
    (h : ∀ o ∈ obs, fredObsValid o = true) :
    (fred_candidates obs).length = obs.length := by
  induction obs with
  | nil => rfl
  | cons o rest ih =>
    have ho := h o (List.mem_cons_self _ _)
    rw [fredObsValid] at ho
    cases hv : o.value with
    | none => rw [hv] at ho; cases ho
    | some w =>
      rw [hv] at ho
      simp only [Bool.and_eq_true, decide_eq_true_eq] at ho
      obtain ⟨⟨hdot, hdate⟩, hdec⟩ := ho
      obtain ⟨ts, hts⟩ := Option.isSome_iff_exists.mp hdate
      obtain ⟨c, hc⟩ := Option.isSome_iff_exists.mp hdec
      have ih' := ih (fun o ho' => h o (List.mem_cons_of_mem _ ho'))
      simp [fred_candidates, List.filterMap_cons, hv, hdot, hts, hc] at ih' ⊢
      exact ih'

/-- C8: a FRED observation whose value is the `"."` sentinel is skipped, so
a payload with one such observation (the rest valid) yields one fewer
candidate than the list length; the concrete payload with a `"."` row and
a `5.25` row creates exactly one observation, dated 2024-01-03 with
close = 5.25, against an empty store. -/
theorem fred_dot_sentinel_skip (pre post : List FredObs) (dotObs : FredObs)
    (v : String) (hdotv : dotObs.value = some v) (hdot : pyStrip v = ".")
    (hvalid : ∀ o ∈ pre ++ post, fredObsValid o = true) :
    (fred_candidates (pre ++ dotObs :: post)).length =
      (pre ++ dotObs :: post).length - 1 ∧
    process_fred_data []
      ⟨some [⟨some "2024-01-02", some "."⟩, ⟨some "2024-01-03", some "5.25"⟩]⟩ =
      ([{ timestamp := 20240103, close_price := 21/4 }], 1) := by
  constructor
  · have hpre := fred_candidates_of_valid pre
      (fun o ho => hvalid o (List.mem_append_left _ ho))
    have hpost := fred_candidates_of_valid post
      (fun o ho => hvalid o (List.mem_append_right _ ho))
    have hsplit : (fred_candidates (pre ++ dotObs :: post)).length =
        (fred_candidates pre).length + (fred_candidates post).length := by
      simp [fred_candidates, List.filterMap_append, List.filterMap_cons,
        hdotv, hdot]
    rw [hsplit, hpre, hpost]
    simp only [List.length_append, List.length_cons]
    omega
  · have hstep : to_decimal (some "5.25") =
        some ((1 : ℚ) * ((↑(5 : ℕ)) + (↑(25 : ℕ)) / (10 : ℚ) ^ (2 : ℕ))) := rfl
    have h525 : to_decimal (some "5.25") = some ((21 : ℚ) / 4) := by
      rw [hstep]; norm_num
    have hdate : parse_date_string (some "2024-01-03") = some 20240103 := by
      decide
    simp +decide [process_fred_data, fred_candidates, List.filterMap_cons,
      hdate, h525, reconcile, prepare_price_data_entries, prepareLoop,
      insertIgnoreConflicts, storeTimestamps, toPriceRow]
    have hd1 : digitsVal ['5'] = 5 := by decide
    have hd2 : digitsVal ['2', '5'] = 25 := by decide
    rw [hd1, hd2]
    norm_num

/-- Witness for C8 with a one-valid-plus-one-sentinel observation list. -/
theorem fred_dot_sentinel_skip_witness :
    (fred_candidates ([⟨some "2024-01-02", some "7.5"⟩] ++
      (⟨some "2024-01-05", some "."⟩ : FredObs) :: [])).length =
      ([(⟨some "2024-01-02", some "7.5"⟩ : FredObs)] ++
        (⟨some "2024-01-05", some "."⟩ : FredObs) :: []).length - 1 ∧
    process_fred_data []
      ⟨some [⟨some "2024-01-02", some "."⟩, ⟨some "2024-01-03", some "5.25"⟩]⟩ =
      ([{ timestamp := 20240103, close_price := 21/4 }], 1) :=
  fred_dot_sentinel_skip [⟨some "2024-01-02", some "7.5"⟩] []
    ⟨some "2024-01-05", some "."⟩ "." rfl (by decide) (by decide)

theorem mark_as_completed_call_raises (rec : MarketUpdateRec) (status : String)
    (records_fetched records_created : Nat) (error_message : Option String) :
    mark_as_completed_call rec status records_fetched records_created
      error_message =
      .error (.attributeError
        "MarketUpdate object has no attribute mark_as_completed") := rfl

/-- C3 (code bug): every branch of `update_single_commodity` performs its
terminal write by calling `mark_as_completed`, a method `MarketUpdate`
does not define (its completion method is `mark_completed`, with no
`status` or `error_message` parameter), so whatever the fetch outcome and
created count, the call raises `AttributeError` and the ledger entry is
left in RUNNING — the FAILED/PARTIAL/SUCCESS classification is never
written. -/
theorem update_single_commodity_never_writes_terminal (now : Nat)
    (source_name symbol : String) (task_id : Option String) (store : Store)
    (fetch_result : Except Exc RawPayload) :
    (update_single_commodity now source_name symbol task_id store
      fetch_result).2.1.status = "RUNNING" ∧
    (update_single_commodity now source_name symbol task_id store
      fetch_result).2.2 =
      .error (.attributeError
        "MarketUpdate object has no attribute mark_as_completed") := by
  refine ⟨?_, ?_⟩ <;>
    (cases fetch_result with
     | error e => rfl
     | ok raw =>
       simp only [update_single_commodity, mark_as_completed_call_raises]
       split_ifs <;> rfl)

/-- C7 (code bug): for the Alpha-Vantage scenario payload against an empty
store, the processor creates exactly one row with open 10.0 and close 10.5
(created count 1) and the row is stored, but the orchestrated run raises
`AttributeError` at the SUCCESS terminal write, so the run status stays
RUNNING instead of becoming SUCCESS. -/
theorem av_scenario_row_created_but_run_crashes :
    process_alpha_vantage_data []
      ⟨[("Time Series (Daily)",
         some [("2024-01-02", [("1. open", "10.0"), ("4. close", "10.5")])])]⟩ =
      ([{ timestamp := 20240102, open_price := some 10,
          close_price := 21/2 }], 1) ∧
    (update_single_commodity 0 "Alpha Vantage" "GOLD" none []
      (.ok (.av ⟨[("Time Series (Daily)",
        some [("2024-01-02",
          [("1. open", "10.0"), ("4. close", "10.5")])])]⟩))).1 =
      [{ timestamp := 20240102, open_price := some 10, close_price := 21/2 }] ∧
    (update_single_commodity 0 "Alpha Vantage" "GOLD" none []
      (.ok (.av ⟨[("Time Series (Daily)",
        some [("2024-01-02",
          [("1. open", "10.0"), ("4. close", "10.5")])])]⟩))).2.1.status =
      "RUNNING" ∧
    (update_single_commodity 0 "Alpha Vantage" "GOLD" none []
      (.ok (.av ⟨[("Time Series (Daily)",
        some [("2024-01-02",
          [("1. open", "10.0"), ("4. close", "10.5")])])]⟩))).2.2 =
      .error (.attributeError
        "MarketUpdate object has no attribute mark_as_completed") := by
  have hnone : to_decimal none = none := rfl
  have h100 : to_decimal (some "10.0") = some ((10 : ℚ)) := by
    have hstep : to_decimal (some "10.0") =
        some ((1 : ℚ) * ((↑(10 : ℕ)) + (↑(0 : ℕ)) / (10 : ℚ) ^ (1 : ℕ))) := rfl
    rw [hstep]; norm_num
  have h105 : to_decimal (some "10.5") = some ((21 : ℚ) / 2) := by
    have hstep : to_decimal (some "10.5") =
        some ((1 : ℚ) * ((↑(10 : ℕ)) + (↑(5 : ℕ)) / (10 : ℚ) ^ (1 : ℕ))) := rfl
    rw [hstep]; norm_num
  have hopen : fuzzyLookup [("1. open", "10.0"), ("4. close", "10.5")] "open" =
      some "10.0" := by decide
  have hhigh : fuzzyLookup [("1. open", "10.0"), ("4. close", "10.5")] "high" =
      none := by decide
  have hlow : fuzzyLookup [("1. open", "10.0"), ("4. close", "10.5")] "low" =
      none := by decide
  have hclose : fuzzyLookup [("1. open", "10.0"), ("4. close", "10.5")] "close" =
      some "10.5" := by decide
  have hvol : fuzzyLookup [("1. open", "10.0"), ("4. close", "10.5")] "volume" =
      none := by decide
  have hdate : parse_date_string (some "2024-01-02") = some 20240102 := by
    decide
  have hproc : process_alpha_vantage_data []
      ⟨[("Time Series (Daily)",
         some [("2024-01-02", [("1. open", "10.0"), ("4. close", "10.5")])])]⟩ =
      ([{ timestamp := 20240102, open_price := some 10,
          close_price := 21/2 }], 1) := by
    simp +decide [process_alpha_vantage_data, av_parse_items,
      List.filterMap_cons, hopen, hhigh, hlow, hclose, hvol, hdate, h100, h105,
      hnone, avVolume, reconcile, prepare_price_data_entries, prepareLoop,
      insertIgnoreConflicts, storeTimestamps, toPriceRow]
    have hd10 : digitsVal ['1', '0'] = 10 := by decide
    have hd5 : digitsVal ['5'] = 5 := by decide
    rw [hd10, hd5]
    norm_num
  have havail : get_processor_method_available "Alpha Vantage" = true := by
    decide
  refine ⟨hproc, ?_, ?_, ?_⟩ <;>
    simp +decide [update_single_commodity, run_processor, havail, hproc,
      mark_as_completed_call_raises, RawPayload.isTruthy, mark_as_running]

end CommodityTracker
